import Mathlib

/-! Verification of the USB audio device core (devices/dev-audio.c): the
streambuf ring buffer, the alternate-setting state machine, and the
class-specific mute/volume control requests with their fixed-point
volume code mapping. All machine arithmetic is modelled on Nat with
explicit reduction modulo 2^32, 2^16 or 2^8 where the C types wrap. -/

namespace DevAudio

/-- Fixed USB audio packet size in bytes (one 1 ms frame of 48 kHz 16-bit stereo). -/
def USBAUDIO_PACKET_SIZE : Nat := 192

/-- Modulus of unsigned 32-bit arithmetic. -/
def U32 : Nat := 4294967296

/-- Unsigned 32-bit subtraction: a minus b reduced modulo 2^32. -/
def u32sub (a b : Nat) : Nat := (a + (U32 - b % U32)) % U32

/-- Transport packet: delivery status, running count of copied bytes, and the
payload bytes offered by the host. Modelled from the spec: the USB core
packet type (usb.h) is not part of src; only the fields the audio core
touches are kept, with status 0 meaning success. -/
structure USBPacket where
  status : Int
  actual_length : Nat
  payload : List Nat
deriving DecidableEq

/-- Circular byte store with monotonically increasing 32-bit producer and
consumer cursors (struct streambuf in dev-audio.c). -/
structure streambuf where
  data : List Nat
  size : Nat
  prod : Nat
  cons : Nat
deriving DecidableEq

/-- streambuf_init: releases prior storage (hence the result ignores the old
buffer), keeps size rounded down to a multiple of the packet size, allocates
that many bytes and zeroes both cursors. -/
def streambuf_init (_buf : streambuf) (size : Nat) : streambuf :=
  { data := List.replicate (size - size % USBAUDIO_PACKET_SIZE) 0
    size := size - size % USBAUDIO_PACKET_SIZE
    prod := 0
    cons := 0 }

/-- Overwrite the bytes of d starting at offset off with src, keeping the
length of d. -/
def writeBytes (d : List Nat) (off : Nat) (src : List Nat) : List Nat :=
  (d.take off ++ src ++ d.drop (off + src.length)).take d.length

/-- streambuf_put: free = size - (prod - cons) in 32-bit arithmetic; when free
is zero it returns 0 with nothing written; otherwise the C code asserts
free at least one packet (modelled as none when that assertion fails) and
copies exactly one packet-size chunk at offset prod mod size, advancing prod.
usb_packet_copy (USB core, not in src) is modelled from the spec: it copies
one packet-size chunk from the source and advances the packet field
actual_length by the copied amount. -/
def streambuf_put (buf : streambuf) (p : USBPacket) :
    Option (streambuf × USBPacket × Nat) :=
  let free := u32sub buf.size (u32sub buf.prod buf.cons)
  if free = 0 then
    some (buf, p, 0)
  else if USBAUDIO_PACKET_SIZE ≤ free then
    some ({ buf with
              data := writeBytes buf.data (buf.prod % buf.size)
                        (p.payload.take USBAUDIO_PACKET_SIZE)
              prod := (buf.prod + USBAUDIO_PACKET_SIZE) % U32 },
          { p with actual_length := p.actual_length + USBAUDIO_PACKET_SIZE },
          USBAUDIO_PACKET_SIZE)
  else
    none

/-- streambuf_get: used = prod - cons in 32-bit arithmetic; when used is zero
or below len the result is none (the C NULL) and the buffer is returned
untouched; otherwise the view offset cons mod size is returned and cons
advances by len. -/
def streambuf_get (buf : streambuf) (len : Nat) : Option Nat × streambuf :=
  let used := u32sub buf.prod buf.cons
  if used = 0 ∨ used < len then
    (none, buf)
  else
    (some (buf.cons % buf.size), { buf with cons := (buf.cons + len) % U32 })

/-- streambuf_alloc: producer-side analogue of streambuf_get; reserves len
bytes at offset prod mod size and advances prod, or returns none when free
space is zero or below len. -/
def streambuf_alloc (buf : streambuf) (len : Nat) : Option Nat × streambuf :=
  let free := u32sub buf.size (u32sub buf.prod buf.cons)
  if free = 0 ∨ free < len then
    (none, buf)
  else
    (some (buf.prod % buf.size), { buf with prod := (buf.prod + len) % U32 })

/-- One ring-buffer operation: a packet write, a read of len bytes, or a
producer-side reservation of len bytes. -/
inductive BufOp where
  | put (p : USBPacket)
  | get (len : Nat)
  | alloc (len : Nat)

/-- Apply one operation to the buffer; the result is none only on the
streambuf_put assertion failure. Failed reads and reservations and
zero-free writes complete with the buffer untouched. -/
def applyOp (buf : streambuf) : BufOp → Option streambuf
  | .put p => (streambuf_put buf p).map (fun r => r.1)
  | .get len => some (streambuf_get buf len).2
  | .alloc len => some (streambuf_alloc buf len).2

/-- Run a sequence of buffer operations from a starting buffer. -/
def runOps (buf : streambuf) : List BufOp → Option streambuf
  | [] => some buf
  | op :: ops =>
    match applyOp buf op with
    | none => none
    | some b => runOps b ops

/-- Reachable-state invariant of the ring buffer: cursors and size are 32-bit
values and the used count prod - cons (modulo 2^32) never exceeds size. -/
def bufInv (b : streambuf) : Prop :=
  b.prod < U32 ∧ b.cons < U32 ∧ b.size < U32 ∧ u32sub b.prod b.cons ≤ b.size

/-- Playback-side stream state (the out block of USBAudioState). The
voiceActive and voiceVol fields are modelled from the spec: the backend voice
(AUD_* API, external to src) records whether the voice is active and the last
pushed (mute, left volume, right volume) triple. -/
structure OutState where
  altset : Int
  mute : Bool
  vol : Nat × Nat
  buf : streambuf
  voiceActive : Bool
  voiceVol : Bool × Nat × Nat
deriving DecidableEq

/-- Capture-side stream state (the in block of USBAudioState), with a single
volume channel. voiceActive and voiceVol as in OutState. -/
structure InState where
  altset : Int
  mute : Bool
  vol : Nat
  buf : streambuf
  voiceActive : Bool
  voiceVol : Bool × Nat × Nat
deriving DecidableEq

/-- Device state: playback block, capture block (named inp since in is a
reserved word), diagnostic verbosity and the buffer-size property. -/
structure USBAudioState where
  out : OutState
  inp : InState
  debug : Nat
  buffer : Nat
deriving DecidableEq

/-- usb_audio_set_output_altset: OFF (0) reinitializes the playback buffer and
deactivates the playback voice, ON (1) activates it; any other value returns
-1 before touching any state. The stored altset is updated only on the two
legal codes. -/
def usb_audio_set_output_altset (s : USBAudioState) (altset : Int) :
    USBAudioState × Int :=
  if altset = 0 then
    ({ s with out := { s.out with
         buf := streambuf_init s.out.buf s.buffer
         voiceActive := false
         altset := 0 } }, 0)
  else if altset = 1 then
    ({ s with out := { s.out with voiceActive := true, altset := 1 } }, 0)
  else
    (s, -1)

/-- usb_audio_set_input_altset: capture-side analogue of
usb_audio_set_output_altset. -/
def usb_audio_set_input_altset (s : USBAudioState) (altset : Int) :
    USBAudioState × Int :=
  if altset = 0 then
    ({ s with inp := { s.inp with
         buf := streambuf_init s.inp.buf s.buffer
         voiceActive := false
         altset := 0 } }, 0)
  else if altset = 1 then
    ({ s with inp := { s.inp with voiceActive := true, altset := 1 } }, 0)
  else
    (s, -1)

/-- usb_audio_set_interface: interface 1 routes to the playback transition,
interface 2 to the capture transition, anything else is a no-op; the C
function returns void, so the transition result code is dropped here. -/
def usb_audio_set_interface (s : USBAudioState) (iface _old value : Int) :
    USBAudioState :=
  if iface = 1 then (usb_audio_set_output_altset s value).1
  else if iface = 2 then (usb_audio_set_input_altset s value).1
  else s

/-- Class-specific request code SET_CUR. -/
def CR_SET_CUR : Nat := 0x01

/-- Class-specific request code GET_CUR. -/
def CR_GET_CUR : Nat := 0x81

/-- Class-specific request code GET_MIN. -/
def CR_GET_MIN : Nat := 0x82

/-- Class-specific request code GET_MAX. -/
def CR_GET_MAX : Nat := 0x83

/-- Class-specific request code GET_RES. -/
def CR_GET_RES : Nat := 0x84

/-- Feature-unit control selector for mute. -/
def MUTE_CONTROL : Nat := 0x01

/-- Feature-unit control selector for volume. -/
def VOLUME_CONTROL : Nat := 0x02

/-- Modelled from the spec: the USB core stall result code (usb.h is not part
of src); callers treat any negative return as failure and stall the
transfer. -/
def USB_RET_STALL : Int := -3

/-- ATTRIB_ID packs (control selector, request attribute, interface/unit id);
the C bit-or of disjoint bit fields equals this sum whenever cs and attrib
are below 256 and idif is below 65536, which the uint8/uint16 argument types
guarantee. -/
def ATTRIB_ID (cs attrib idif : Nat) : Nat :=
  cs * 16777216 + attrib * 65536 + idif

/-- GET CUR volume encoding from dev-audio.c: (v * 0x8800 + 127) / 255 +
0x8000, truncated to 16 bits by the uint16 local. -/
def encodeVol (v : Nat) : Nat := ((v * 0x8800 + 127) / 255 + 0x8000) % 65536

/-- SET CUR volume decoding from dev-audio.c: assemble the 16-bit code from
two bytes, subtract 0x8000 with uint16 wraparound (written here as adding
0x8000 modulo 2^16), scale by 255 / 0x8800 with bias 0x4400, and clamp
from above at 255. There is no lower clamp: the value is unsigned. -/
def decodeVol (lo hi : Nat) : Nat :=
  let code := (lo % 256 + (hi % 256) * 256 + 0x8000) % 65536
  let v := (code * 255 + 0x4400) / 0x8800
  if v > 255 then 255 else v

/-- usb_audio_get_control: dispatch on ATTRIB_ID(cs, attrib, idif) where cs is
the high byte of cscn and the channel index cn is the low-order uint8 of
cscn - 1 (written here as cscn + 255 modulo 256). Returns the result code
(length produced, or stall) and the bytes written into the data buffer. -/
def usb_audio_get_control (s : USBAudioState) (attrib cscn idif : Nat)
    (_length : Nat) : Int × List Nat :=
  let cs := cscn % 65536 / 256
  let cn := (cscn % 65536 + 255) % 256
  let aid := ATTRIB_ID cs (attrib % 256) (idif % 65536)
  if aid = ATTRIB_ID MUTE_CONTROL CR_GET_CUR 0x0200 then
    (1, [if s.out.mute then 1 else 0])
  else if aid = ATTRIB_ID VOLUME_CONTROL CR_GET_CUR 0x0200 then
    if cn < 2 then
      let vol := encodeVol (if cn = 0 then s.out.vol.1 else s.out.vol.2)
      (2, [vol % 256, vol / 256])
    else (USB_RET_STALL, [])
  else if aid = ATTRIB_ID VOLUME_CONTROL CR_GET_MIN 0x0200 then
    if cn < 2 then (2, [0x01, 0x80]) else (USB_RET_STALL, [])
  else if aid = ATTRIB_ID VOLUME_CONTROL CR_GET_MAX 0x0200 then
    if cn < 2 then (2, [0x00, 0x08]) else (USB_RET_STALL, [])
  else if aid = ATTRIB_ID VOLUME_CONTROL CR_GET_RES 0x0200 then
    if cn < 2 then (2, [0x88, 0x00]) else (USB_RET_STALL, [])
  else if aid = ATTRIB_ID MUTE_CONTROL CR_GET_CUR 0x0500 then
    (1, [if s.inp.mute then 1 else 0])
  else if aid = ATTRIB_ID VOLUME_CONTROL CR_GET_CUR 0x0500 then
    if cn < 2 then
      let vol := encodeVol (if cn = 0 then s.out.vol.1 else s.out.vol.2)
      (2, [vol % 256, vol / 256])
    else (USB_RET_STALL, [])
  else if aid = ATTRIB_ID VOLUME_CONTROL CR_GET_MIN 0x0500 then
    if cn < 2 then (2, [0x01, 0x80]) else (USB_RET_STALL, [])
  else if aid = ATTRIB_ID VOLUME_CONTROL CR_GET_MAX 0x0500 then
    if cn < 2 then (1, [0x00]) else (USB_RET_STALL, [])
  else if aid = ATTRIB_ID VOLUME_CONTROL CR_GET_RES 0x0500 then
    if cn < 2 then (2, [0x88, 0x00]) else (USB_RET_STALL, [])
  else (USB_RET_STALL, [])

/-- usb_audio_set_control: same dispatch as usb_audio_get_control. Mute SET
CUR stores bit 0 of the first data byte and pushes (mute, volumes) to the
backend voice; volume SET CUR decodes the two data bytes and stores the
decoded linear volume, pushing the updated triple. Unsupported combinations
return the stall code with the state untouched. -/
def usb_audio_set_control (s : USBAudioState) (attrib cscn idif : Nat)
    (_length : Nat) (data : List Nat) : USBAudioState × Int :=
  let cs := cscn % 65536 / 256
  let cn := (cscn % 65536 + 255) % 256
  let aid := ATTRIB_ID cs (attrib % 256) (idif % 65536)
  if aid = ATTRIB_ID MUTE_CONTROL CR_SET_CUR 0x0200 then
    let m := data.headD 0 % 2 == 1
    ({ s with out := { s.out with
         mute := m
         voiceVol := (m, s.out.vol.1, s.out.vol.2) } }, 0)
  else if aid = ATTRIB_ID VOLUME_CONTROL CR_SET_CUR 0x0200 then
    if cn < 2 then
      let v := decodeVol (data.headD 0) (data.getD 1 0)
      let vols := if cn = 0 then (v, s.out.vol.2) else (s.out.vol.1, v)
      ({ s with out := { s.out with
           vol := vols
           voiceVol := (s.out.mute, vols.1, vols.2) } }, 0)
    else (s, USB_RET_STALL)
  else if aid = ATTRIB_ID MUTE_CONTROL CR_SET_CUR 0x0500 then
    let m := data.headD 0 % 2 == 1
    ({ s with inp := { s.inp with
         mute := m
         voiceVol := (m, s.inp.vol, s.inp.vol) } }, 0)
  else if aid = ATTRIB_ID VOLUME_CONTROL CR_SET_CUR 0x0500 then
    if cn < 2 then
      let v := decodeVol (data.headD 0) (data.getD 1 0)
      ({ s with inp := { s.inp with
           vol := v
           voiceVol := (s.inp.mute, v, v) } }, 0)
    else (s, USB_RET_STALL)
  else (s, USB_RET_STALL)

/-- usb_audio_handle_dataout: stalls while the playback alt-setting is OFF;
otherwise offers the payload to streambuf_put and ignores its result (a full
buffer drops the payload; the overrun is only reported by a diagnostic
message, which changes no state). none models the streambuf_put assertion
failure, unreachable from reachable buffer states. -/
def usb_audio_handle_dataout (s : USBAudioState) (p : USBPacket) :
    Option (USBAudioState × USBPacket) :=
  if s.out.altset = 0 then
    some (s, { p with status := USB_RET_STALL })
  else
    match streambuf_put s.out.buf p with
    | none => none
    | some (b, p2, _) => some ({ s with out := { s.out with buf := b } }, p2)

/-- Combinations handled by usb_audio_get_control: mute GET CUR for either
unit, and volume GET CUR/MIN/MAX/RES for either unit with channel index
below 2. -/
def getSupported (attrib cscn idif : Nat) : Prop :=
  let cs := cscn % 65536 / 256
  let cn := (cscn % 65536 + 255) % 256
  let a := attrib % 256
  let i := idif % 65536
  (cs = MUTE_CONTROL ∧ a = CR_GET_CUR ∧ (i = 0x0200 ∨ i = 0x0500)) ∨
  (cs = VOLUME_CONTROL ∧
    (a = CR_GET_CUR ∨ a = CR_GET_MIN ∨ a = CR_GET_MAX ∨ a = CR_GET_RES) ∧
    (i = 0x0200 ∨ i = 0x0500) ∧ cn < 2)

/-- Combinations handled by usb_audio_set_control: mute SET CUR for either
unit, and volume SET CUR for either unit with channel index below 2. -/
def setSupported (attrib cscn idif : Nat) : Prop :=
  let cs := cscn % 65536 / 256
  let cn := (cscn % 65536 + 255) % 256
  let a := attrib % 256
  let i := idif % 65536
  (cs = MUTE_CONTROL ∧ a = CR_SET_CUR ∧ (i = 0x0200 ∨ i = 0x0500)) ∨
  (cs = VOLUME_CONTROL ∧ a = CR_SET_CUR ∧ (i = 0x0200 ∨ i = 0x0500) ∧ cn < 2)

/-- Example ring buffer: freshly initialized with capacity 192. -/
def bufEx : streambuf := streambuf_init ⟨[], 0, 0, 0⟩ 192

/-- Example ring buffer holding one full packet (prod = 192, cons = 0). -/
def bufNE : streambuf := ⟨List.replicate 192 0, 192, 192, 0⟩

/-- Example device state with the realize-time defaults (volumes 240, mute
off, both alt-settings OFF) over a one-packet buffer. -/
def sEx : USBAudioState :=
  { out := { altset := 0, mute := false, vol := (240, 240), buf := bufEx
             voiceActive := false, voiceVol := (false, 240, 240) }
    inp := { altset := 0, mute := false, vol := 240, buf := bufEx
             voiceActive := false, voiceVol := (false, 240, 240) }
    debug := 0
    buffer := 192 }

/-- Example packet: success status, no bytes copied yet, one packet of
payload. -/
def pEx : USBPacket := ⟨0, 0, List.replicate 192 7⟩

/-- State transformer used to quantify the round-trip claim over the stored
playback volume of channel 0. -/
def withOutVol0 (s : USBAudioState) (v : Nat) : USBAudioState :=
  { s with out := { s.out with vol := (v, s.out.vol.2) } }

lemma free_eq_sub {b : streambuf} (h : bufInv b) :
    u32sub b.size (u32sub b.prod b.cons) = b.size - u32sub b.prod b.cons := by
  obtain ⟨hp, hc, hs, hu⟩ := h
  simp only [u32sub, U32] at *
  omega

lemma bufInv_put {b b' : streambuf} {p p' : USBPacket} {n : Nat}
    (h : bufInv b) (hput : streambuf_put b p = some (b', p', n)) : bufInv b' := by
  obtain ⟨hp, hc, hs, hu⟩ := h
  simp only [streambuf_put] at hput
  split_ifs at hput with h0 h1
  · obtain ⟨rfl, -, -⟩ := Prod.mk.injEq .. ▸ (Option.some.injEq .. ▸ hput)
    exact ⟨hp, hc, hs, hu⟩
  · have hb : b' = { b with
        data := writeBytes b.data (b.prod % b.size)
                  (p.payload.take USBAUDIO_PACKET_SIZE)
        prod := (b.prod + USBAUDIO_PACKET_SIZE) % U32 } := by
      cases hput' : hput
      rfl
    subst hb
    refine ⟨?_, hc, hs, ?_⟩ <;>
      simp only [u32sub, U32, USBAUDIO_PACKET_SIZE] at * <;> omega

lemma bufInv_get (b : streambuf) (len : Nat) (h : bufInv b) :
    bufInv (streambuf_get b len).2 := by
  obtain ⟨hp, hc, hs, hu⟩ := h
  simp only [streambuf_get]
  split_ifs with h0
  · exact ⟨hp, hc, hs, hu⟩
  · refine ⟨hp, ?_, hs, ?_⟩ <;>
      simp only [u32sub, U32] at * <;> omega

lemma bufInv_alloc (b : streambuf) (len : Nat) (h : bufInv b) :
    bufInv (streambuf_alloc b len).2 := by
  obtain ⟨hp, hc, hs, hu⟩ := h
  simp only [streambuf_alloc]
  split_ifs with h0
  · exact ⟨hp, hc, hs, hu⟩
  · refine ⟨?_, hc, hs, ?_⟩ <;>
      simp only [u32sub, U32] at * <;> omega

lemma bufInv_applyOp {b b' : streambuf} {op : BufOp} (h : bufInv b)
    (happ : applyOp b op = some b') : bufInv b' := by
  cases op with
  | put p =>
    simp only [applyOp] at happ
    cases hput : streambuf_put b p with
    | none => rw [hput] at happ; simp at happ
    | some r =>
      obtain ⟨b1, p1, n1⟩ := r
      rw [hput] at happ
      simp only [Option.map_some', Option.some.injEq] at happ
      subst happ
      exact bufInv_put h hput
  | get len =>
    simp only [applyOp, Option.some.injEq] at happ
    subst happ
    exact bufInv_get b len h
  | alloc len =>
    simp only [applyOp, Option.some.injEq] at happ
    subst happ
    exact bufInv_alloc b len h

lemma bufInv_runOps {ops : List BufOp} {b b' : streambuf} (h : bufInv b)
    (hr : runOps b ops = some b') : bufInv b' := by
  induction ops generalizing b with
  | nil =>
    simp only [runOps, Option.some.injEq] at hr
    subst hr
    exact h
  | cons op ops ih =>
    simp only [runOps] at hr
    cases happ : applyOp b op with
    | none => rw [happ] at hr; simp at hr
    | some b1 =>
      rw [happ] at hr
      exact ih (bufInv_applyOp h happ) hr

lemma bufInv_init (b0 : streambuf) (cap : Nat) (hcap : cap < U32) :
    bufInv (streambuf_init b0 cap) := by
  refine ⟨?_, ?_, ?_, ?_⟩ <;>
    simp only [streambuf_init, u32sub, U32, USBAUDIO_PACKET_SIZE] at * <;> omega

set_option maxHeartbeats 2000000 in
lemma get_control_stall (s : USBAudioState) (attrib cscn idif length : Nat)
    (hget : ¬ getSupported attrib cscn idif) :
    usb_audio_get_control s attrib cscn idif length = (USB_RET_STALL, []) := by
  simp only [getSupported, MUTE_CONTROL, VOLUME_CONTROL, CR_GET_CUR,
    CR_GET_MIN, CR_GET_MAX, CR_GET_RES] at hget
  simp only [usb_audio_get_control, ATTRIB_ID, MUTE_CONTROL, VOLUME_CONTROL,
    CR_GET_CUR, CR_GET_MIN, CR_GET_MAX, CR_GET_RES]
  set A := cscn % 65536 / 256 * 16777216 + attrib % 256 * 65536 + idif % 65536 with hA
  set CN := (cscn % 65536 + 255) % 256 with hCN
  by_cases h1 : A = 1 * 16777216 + 129 * 65536 + 512
  · rw [if_pos h1]
    exact absurd (by omega) hget
  rw [if_neg h1]
  by_cases h2 : A = 2 * 16777216 + 129 * 65536 + 512
  · rw [if_pos h2, if_neg (show ¬ CN < 2 from fun hlt => absurd (by omega) hget)]
  rw [if_neg h2]
  by_cases h3 : A = 2 * 16777216 + 130 * 65536 + 512
  · rw [if_pos h3, if_neg (show ¬ CN < 2 from fun hlt => absurd (by omega) hget)]
  rw [if_neg h3]
  by_cases h4 : A = 2 * 16777216 + 131 * 65536 + 512
  · rw [if_pos h4, if_neg (show ¬ CN < 2 from fun hlt => absurd (by omega) hget)]
  rw [if_neg h4]
  by_cases h5 : A = 2 * 16777216 + 132 * 65536 + 512
  · rw [if_pos h5, if_neg (show ¬ CN < 2 from fun hlt => absurd (by omega) hget)]
  rw [if_neg h5]
  by_cases h6 : A = 1 * 16777216 + 129 * 65536 + 1280
  · rw [if_pos h6]
    exact absurd (by omega) hget
  rw [if_neg h6]
  by_cases h7 : A = 2 * 16777216 + 129 * 65536 + 1280
  · rw [if_pos h7, if_neg (show ¬ CN < 2 from fun hlt => absurd (by omega) hget)]
  rw [if_neg h7]
  by_cases h8 : A = 2 * 16777216 + 130 * 65536 + 1280
  · rw [if_pos h8, if_neg (show ¬ CN < 2 from fun hlt => absurd (by omega) hget)]
  rw [if_neg h8]
  by_cases h9 : A = 2 * 16777216 + 131 * 65536 + 1280
  · rw [if_pos h9, if_neg (show ¬ CN < 2 from fun hlt => absurd (by omega) hget)]
  rw [if_neg h9]
  by_cases h10 : A = 2 * 16777216 + 132 * 65536 + 1280
  · rw [if_pos h10, if_neg (show ¬ CN < 2 from fun hlt => absurd (by omega) hget)]
  rw [if_neg h10]

set_option maxHeartbeats 2000000 in
lemma set_control_stall (s : USBAudioState) (attrib cscn idif length : Nat)
    (data : List Nat) (hset : ¬ setSupported attrib cscn idif) :
    usb_audio_set_control s attrib cscn idif length data = (s, USB_RET_STALL) := by
  simp only [setSupported, MUTE_CONTROL, VOLUME_CONTROL, CR_SET_CUR] at hset
  simp only [usb_audio_set_control, ATTRIB_ID, MUTE_CONTROL, VOLUME_CONTROL,
    CR_SET_CUR]
  set A := cscn % 65536 / 256 * 16777216 + attrib % 256 * 65536 + idif % 65536 with hA
  set CN := (cscn % 65536 + 255) % 256 with hCN
  by_cases h1 : A = 1 * 16777216 + 1 * 65536 + 512
  · rw [if_pos h1]
    exact absurd (by omega) hset
  rw [if_neg h1]
  by_cases h2 : A = 2 * 16777216 + 1 * 65536 + 512
  · rw [if_pos h2, if_neg (show ¬ CN < 2 from fun hlt => absurd (by omega) hset)]
  rw [if_neg h2]
  by_cases h3 : A = 1 * 16777216 + 1 * 65536 + 1280
  · rw [if_pos h3]
    exact absurd (by omega) hset
  rw [if_neg h3]
  by_cases h4 : A = 2 * 16777216 + 1 * 65536 + 1280
  · rw [if_pos h4, if_neg (show ¬ CN < 2 from fun hlt => absurd (by omega) hset)]
  rw [if_neg h4]

/-- C4: immediately after streambuf_init(capacity) both cursors are zero and
the allocated size is capacity minus (capacity mod packet size); and every
sequence of completed streambuf_put / streambuf_get / streambuf_alloc
operations keeps consumer ≤ producer ≤ consumer + size, i.e. the used count
prod - cons taken modulo 2^32 never exceeds size. -/
theorem C4_streambuf_invariant (b0 : streambuf) (cap : Nat) (hcap : cap < U32) :
    (streambuf_init b0 cap).prod = 0 ∧ (streambuf_init b0 cap).cons = 0 ∧
    (streambuf_init b0 cap).size = cap - cap % USBAUDIO_PACKET_SIZE ∧
    ∀ ops b, runOps (streambuf_init b0 cap) ops = some b →
      u32sub b.prod b.cons ≤ b.size := by
  refine ⟨rfl, rfl, rfl, ?_⟩
  intro ops b hr
  exact (bufInv_runOps (bufInv_init b0 cap hcap) hr).2.2.2

theorem C4_streambuf_invariant_witness :
    u32sub (streambuf_init bufNE 192).prod (streambuf_init bufNE 192).cons ≤
      (streambuf_init bufNE 192).size :=
  (C4_streambuf_invariant bufNE 192 (by decide)).2.2.2 [] _ rfl

/-- C5: streambuf_put writes exactly one packet-size chunk and returns the
packet size when the free space size - (prod - cons) is at least one packet,
and otherwise writes nothing and returns 0, leaving cursors, stored contents
and the packet untouched; there is no in-between write. Stated over buffer
states satisfying the reachable-state invariant of the playback buffer, in
which size and the used count are multiples of the packet size (so the C
assertion free ≥ packet size cannot fire). -/
theorem C5_put_all_or_nothing (b : streambuf) (p : USBPacket) (h : bufInv b)
    (hs : b.size % USBAUDIO_PACKET_SIZE = 0)
    (hu : u32sub b.prod b.cons % USBAUDIO_PACKET_SIZE = 0) :
    (USBAUDIO_PACKET_SIZE ≤ b.size - u32sub b.prod b.cons →
       streambuf_put b p = some
         ({ b with
              data := writeBytes b.data (b.prod % b.size)
                        (p.payload.take USBAUDIO_PACKET_SIZE)
              prod := (b.prod + USBAUDIO_PACKET_SIZE) % U32 },
          { p with actual_length := p.actual_length + USBAUDIO_PACKET_SIZE },
          USBAUDIO_PACKET_SIZE)) ∧
    (b.size - u32sub b.prod b.cons < USBAUDIO_PACKET_SIZE →
       streambuf_put b p = some (b, p, 0)) := by
  have hfree := free_eq_sub h
  constructor
  · intro hge
    have h0 : ¬ u32sub b.size (u32sub b.prod b.cons) = 0 := by
      rw [hfree]
      simp only [USBAUDIO_PACKET_SIZE] at hge
      omega
    have h1 : USBAUDIO_PACKET_SIZE ≤ u32sub b.size (u32sub b.prod b.cons) := by
      rw [hfree]; exact hge
    simp only [streambuf_put, if_neg h0, if_pos h1]
  · intro hlt
    have hle := h.2.2.2
    have h0 : u32sub b.size (u32sub b.prod b.cons) = 0 := by
      rw [hfree]
      simp only [USBAUDIO_PACKET_SIZE] at hs hu hlt
      omega
    simp only [streambuf_put, if_pos h0]

theorem C5_put_all_or_nothing_witness :
    streambuf_put bufEx pEx = some
      ({ bufEx with
           data := writeBytes bufEx.data (bufEx.prod % bufEx.size)
                     (pEx.payload.take USBAUDIO_PACKET_SIZE)
           prod := (bufEx.prod + USBAUDIO_PACKET_SIZE) % U32 },
       { pEx with actual_length := pEx.actual_length + USBAUDIO_PACKET_SIZE },
       USBAUDIO_PACKET_SIZE) :=
  (C5_put_all_or_nothing bufEx pEx (by unfold bufInv; decide) (by decide)
    (by decide)).1 (by decide)

/-- C6 counterexample: a zero-length read from an empty buffer satisfies the
claimed success condition prod - cons ≥ len, yet streambuf_get returns the
unavailable result (the C NULL), refuting the claim as stated. -/
theorem C6_counterexample_zero_len :
    u32sub bufEx.prod bufEx.cons ≥ 0 ∧ (streambuf_get bufEx 0).1 = none :=
  ⟨Nat.zero_le _, rfl⟩

/-- C6 (amended): for every requested length, streambuf_get returns the
contiguous view at offset cons mod size and advances cons by exactly len when
the buffer is nonempty (prod - cons nonzero modulo 2^32) and prod - cons ≥
len; otherwise — including a zero-length request on an empty buffer, which
the original claim counted as success — it returns the unavailable result
with the buffer, in particular both cursors, unchanged. -/
theorem C6_get_view_or_unavailable (b : streambuf) (len : Nat) :
    (u32sub b.prod b.cons ≠ 0 → len ≤ u32sub b.prod b.cons →
       streambuf_get b len =
         (some (b.cons % b.size), { b with cons := (b.cons + len) % U32 })) ∧
    ((u32sub b.prod b.cons = 0 ∨ u32sub b.prod b.cons < len) →
       streambuf_get b len = (none, b)) := by
  constructor
  · intro h1 h2
    have hno : ¬ (u32sub b.prod b.cons = 0 ∨ u32sub b.prod b.cons < len) := by
      omega
    simp only [streambuf_get, if_neg hno]
  · intro hyes
    simp only [streambuf_get, if_pos hyes]

theorem C6_get_view_or_unavailable_witness :
    streambuf_get bufNE 192 =
      (some (bufNE.cons % bufNE.size), { bufNE with cons := (bufNE.cons + 192) % U32 }) :=
  (C6_get_view_or_unavailable bufNE 192).1 (by decide) (by decide)

/-- C7: usb_audio_handle_dataout stalls, with no buffer write and no state
change, exactly when the playback alt-setting is OFF; when it is ON the
transfer keeps its incoming success status even when the buffer is full, in
which case the payload is dropped and the device state is unchanged (the
overrun is diagnostic-only). Stated over reachable playback-buffer states
(invariant plus packet-size divisibility), which keep the streambuf_put
assertion from firing. -/
theorem C7_dataout_stall_iff_off (s : USBAudioState) (p : USBPacket)
    (hst : p.status = 0) (h : bufInv s.out.buf)
    (hs : s.out.buf.size % USBAUDIO_PACKET_SIZE = 0)
    (hu : u32sub s.out.buf.prod s.out.buf.cons % USBAUDIO_PACKET_SIZE = 0) :
    ∃ s2 p2, usb_audio_handle_dataout s p = some (s2, p2) ∧
      (p2.status = USB_RET_STALL ↔ s.out.altset = 0) ∧
      (s.out.altset = 0 → s2 = s ∧ p2.actual_length = p.actual_length) ∧
      (s.out.altset ≠ 0 →
        u32sub s.out.buf.prod s.out.buf.cons = s.out.buf.size →
          s2 = s ∧ p2 = p) := by
  have hfree := free_eq_sub h
  have hle := h.2.2.2
  by_cases halt : s.out.altset = 0
  · refine ⟨s, { p with status := USB_RET_STALL }, ?_, ?_, ?_, ?_⟩
    · simp only [usb_audio_handle_dataout, if_pos halt]
    · simp [halt]
    · exact fun _ => ⟨rfl, rfl⟩
    · exact fun hne => absurd halt hne
  · by_cases hfull : u32sub s.out.buf.prod s.out.buf.cons = s.out.buf.size
    · have h0 : u32sub s.out.buf.size (u32sub s.out.buf.prod s.out.buf.cons) = 0 := by
        rw [hfree]; omega
      have hput : streambuf_put s.out.buf p = some (s.out.buf, p, 0) := by
        simp only [streambuf_put, if_pos h0]
      refine ⟨s, p, ?_, ?_, fun hz => absurd hz halt, fun _ _ => ⟨rfl, rfl⟩⟩
      · simp only [usb_audio_handle_dataout, if_neg halt, hput]
      · rw [hst]
        simp only [USB_RET_STALL]
        constructor
        · intro hbad; exact absurd hbad (by decide)
        · intro hz; exact absurd hz halt
    · have h0 : ¬ u32sub s.out.buf.size (u32sub s.out.buf.prod s.out.buf.cons) = 0 := by
        rw [hfree]; omega
      have h1 : USBAUDIO_PACKET_SIZE ≤
          u32sub s.out.buf.size (u32sub s.out.buf.prod s.out.buf.cons) := by
        rw [hfree]
        simp only [USBAUDIO_PACKET_SIZE] at hs hu ⊢
        omega
      have hput : streambuf_put s.out.buf p = some
          ({ s.out.buf with
               data := writeBytes s.out.buf.data (s.out.buf.prod % s.out.buf.size)
                         (p.payload.take USBAUDIO_PACKET_SIZE)
               prod := (s.out.buf.prod + USBAUDIO_PACKET_SIZE) % U32 },
           { p with actual_length := p.actual_length + USBAUDIO_PACKET_SIZE },
           USBAUDIO_PACKET_SIZE) := by
        simp only [streambuf_put, if_neg h0, if_pos h1]
      refine ⟨{ s with out := { s.out with buf :=
          { s.out.buf with
              data := writeBytes s.out.buf.data (s.out.buf.prod % s.out.buf.size)
                        (p.payload.take USBAUDIO_PACKET_SIZE)
              prod := (s.out.buf.prod + USBAUDIO_PACKET_SIZE) % U32 } } },
        { p with actual_length := p.actual_length + USBAUDIO_PACKET_SIZE },
        ?_, ?_, fun hz => absurd hz halt, fun _ hfull2 => absurd hfull2 hfull⟩
      · simp only [usb_audio_handle_dataout, if_neg halt, hput]
      · rw [show ({ p with actual_length := p.actual_length + USBAUDIO_PACKET_SIZE} :
            USBPacket).status = p.status from rfl, hst]
        simp only [USB_RET_STALL]
        constructor
        · intro hbad; exact absurd hbad (by decide)
        · intro hz; exact absurd hz halt

theorem C7_dataout_stall_iff_off_witness :
    ∃ s2 p2, usb_audio_handle_dataout sEx pEx = some (s2, p2) ∧
      (p2.status = USB_RET_STALL ↔ sEx.out.altset = 0) ∧
      (sEx.out.altset = 0 → s2 = sEx ∧ p2.actual_length = pEx.actual_length) ∧
      (sEx.out.altset ≠ 0 →
        u32sub sEx.out.buf.prod sEx.out.buf.cons = sEx.out.buf.size →
          s2 = sEx ∧ p2 = pEx) :=
  C7_dataout_stall_iff_off sEx pEx rfl (by unfold bufInv; decide) (by decide)
    (by decide)

/-- C8: any requested alt-setting value other than OFF (0) and ON (1) makes
the transition functions return -1 with no state change at all (alt-setting,
ring buffer and voice activation untouched); in particular routing
setInterface(1, 2) leaves the whole device state, hence the playback
alt-setting, unchanged, with the inner transition reporting -1 (a result
the void usb_audio_set_interface discards). -/
theorem C8_invalid_altset_rejected (s : USBAudioState) (v old : Int)
    (hv0 : v ≠ 0) (hv1 : v ≠ 1) :
    usb_audio_set_output_altset s v = (s, -1) ∧
    usb_audio_set_input_altset s v = (s, -1) ∧
    usb_audio_set_interface s 1 old 2 = s ∧
    (usb_audio_set_output_altset s 2).2 = -1 := by
  refine ⟨?_, ?_, ?_, rfl⟩
  · simp only [usb_audio_set_output_altset, if_neg hv0, if_neg hv1]
  · simp only [usb_audio_set_input_altset, if_neg hv0, if_neg hv1]
  · simp only [usb_audio_set_interface, usb_audio_set_output_altset]
    norm_num

theorem C8_invalid_altset_rejected_witness :
    usb_audio_set_output_altset sEx 2 = (sEx, -1) ∧
    usb_audio_set_input_altset sEx 2 = (sEx, -1) ∧
    usb_audio_set_interface sEx 1 0 2 = sEx ∧
    (usb_audio_set_output_altset sEx 2).2 = -1 :=
  C8_invalid_altset_rejected sEx 2 0 (by decide) (by decide)

/-- C1 counterexample: a SET CUR volume request for playback channel index 0
with code bytes 0x00 0x00 stores linear volume 240, not the 0 the claim
derives from a signed subtraction followed by a lower clamp: the uint16
subtraction wraps, 0x0000 - 0x8000 = 0x8000, and
(0x8000 * 255 + 0x4400) / 0x8800 = 240. -/
theorem C1_counterexample_code_0000 :
    (usb_audio_set_control sEx CR_SET_CUR 0x0201 0x0200 2 [0x00, 0x00]).1.out.vol.1 = 240 ∧
    (240 : Nat) ≠ 0 := by
  decide

/-- C1 (amended): a SET CUR volume request to the playback unit with wire
channel ch (1 or 2, giving channel index ch - 1 < 2) and little-endian code
bytes lo, hi returns zero-length success and stores
min(((code - 0x8000 taken modulo 2^16) * 255 + 0x4400) / 0x8800, 255): the
subtraction wraps in 16-bit unsigned arithmetic, so there is only an upper
clamp at 255 and no lower clamp at 0; code bytes 0x00 0x00 therefore store
240 rather than the claimed 0. -/
theorem C1_set_cur_volume_decode (s : USBAudioState) (ch lo hi : Nat)
    (hch : ch = 1 ∨ ch = 2) (hlo : lo < 256) (hhi : hi < 256) :
    (usb_audio_set_control s CR_SET_CUR (0x0200 + ch) 0x0200 2 [lo, hi]).2 = 0 ∧
    (if ch = 1
      then (usb_audio_set_control s CR_SET_CUR (0x0200 + ch) 0x0200 2 [lo, hi]).1.out.vol.1
      else (usb_audio_set_control s CR_SET_CUR (0x0200 + ch) 0x0200 2 [lo, hi]).1.out.vol.2) =
      min (((lo + hi * 256 + 0x8000) % 65536 * 255 + 0x4400) / 0x8800) 255 := by
  rcases hch with rfl | rfl <;>
  · norm_num [usb_audio_set_control, ATTRIB_ID, MUTE_CONTROL, VOLUME_CONTROL,
      CR_SET_CUR, decodeVol, List.headD, List.getD]
    rw [Nat.mod_eq_of_lt hlo, Nat.mod_eq_of_lt hhi]
    split_ifs <;> omega

theorem C1_set_cur_volume_decode_witness :
    (usb_audio_set_control sEx CR_SET_CUR (0x0200 + 1) 0x0200 2 [0, 136]).2 = 0 ∧
    (if (1 : Nat) = 1
      then (usb_audio_set_control sEx CR_SET_CUR (0x0200 + 1) 0x0200 2 [0, 136]).1.out.vol.1
      else (usb_audio_set_control sEx CR_SET_CUR (0x0200 + 1) 0x0200 2 [0, 136]).1.out.vol.2) =
      min (((0 + 136 * 256 + 0x8000) % 65536 * 255 + 0x4400) / 0x8800) 255 :=
  C1_set_cur_volume_decode sEx 1 0 136 (Or.inl rfl) (by decide) (by decide)

/-- C2 counterexample: a capture SET CUR volume request with derived channel
index 1 (wire channel 2) is out of range for the one-channel capture unit, so
the claim requires a stall with no state change; the code instead succeeds
with result 0 and overwrites the capture volume (240 becomes 15 for code
0x8800). -/
theorem C2_counterexample_capture_cn1 :
    (usb_audio_set_control sEx CR_SET_CUR 0x0202 0x0500 2 [0x00, 0x88]).2 = 0 ∧
    (usb_audio_set_control sEx CR_SET_CUR 0x0202 0x0500 2 [0x00, 0x88]).2 ≠ USB_RET_STALL ∧
    (usb_audio_set_control sEx CR_SET_CUR 0x0202 0x0500 2 [0x00, 0x88]).1.inp.vol = 15 ∧
    sEx.inp.vol = 240 := by
  decide

/-- C2 (amended): every combination outside the supported tables — where the
channel bound is index < 2 for BOTH units, the code checking cn < 2 for the
one-channel capture unit as well — makes usb_audio_get_control return the
stall result writing no data bytes, and usb_audio_set_control return the
stall result with the device state unchanged. The original claim, which
required a stall already at capture channel index 1, is refuted by the
counterexample above. -/
theorem C2_unsupported_stalls (s : USBAudioState) (attrib cscn idif length : Nat)
    (data : List Nat)
    (hget : ¬ getSupported attrib cscn idif)
    (hset : ¬ setSupported attrib cscn idif) :
    usb_audio_get_control s attrib cscn idif length = (USB_RET_STALL, []) ∧
    usb_audio_set_control s attrib cscn idif length data = (s, USB_RET_STALL) :=
  ⟨get_control_stall s attrib cscn idif length hget,
   set_control_stall s attrib cscn idif length data hset⟩

theorem C2_unsupported_stalls_witness :
    usb_audio_get_control sEx 0x85 0x0101 0x0200 2 = (USB_RET_STALL, []) ∧
    usb_audio_set_control sEx 0x85 0x0101 0x0200 2 [] = (sEx, USB_RET_STALL) :=
  C2_unsupported_stalls sEx 0x85 0x0101 0x0200 2 []
    (by simp only [getSupported, MUTE_CONTROL, VOLUME_CONTROL, CR_GET_CUR,
          CR_GET_MIN, CR_GET_MAX, CR_GET_RES]; omega)
    (by simp only [setSupported, MUTE_CONTROL, VOLUME_CONTROL, CR_SET_CUR]; omega)

set_option maxRecDepth 40000 in
/-- C3: for every linear volume v in [0, 255], encoding v through the GET CUR
volume path of usb_audio_get_control and feeding the two produced bytes back
through the SET CUR volume path of usb_audio_set_control stores a volume that
deviates from v by at most 1. -/
theorem C3_roundtrip_within_one (v : Fin 256) :
    (usb_audio_set_control (withOutVol0 sEx v) CR_SET_CUR 0x0201 0x0200 2
        (usb_audio_get_control (withOutVol0 sEx v) CR_GET_CUR 0x0201 0x0200 2).2).1.out.vol.1
      ≤ (v : Nat) + 1 ∧
    (v : Nat) ≤
      (usb_audio_set_control (withOutVol0 sEx v) CR_SET_CUR 0x0201 0x0200 2
        (usb_audio_get_control (withOutVol0 sEx v) CR_GET_CUR 0x0201 0x0200 2).2).1.out.vol.1
      + 1 := by
  revert v
  decide

/-- C9: GET CUR volume addressed to the capture unit (idif 0x0500) with
channel index below 2 returns the 2-byte encoding of the PLAYBACK unit volume
out.vol[cn]; the capture unit volume field inp.vol does not appear in the
result. -/
theorem C9_capture_get_cur_reads_playback (s : USBAudioState) (ch len : Nat)
    (hch : ch = 1 ∨ ch = 2) :
    usb_audio_get_control s CR_GET_CUR (0x0200 + ch) 0x0500 len =
      (2, [encodeVol (if ch = 1 then s.out.vol.1 else s.out.vol.2) % 256,
           encodeVol (if ch = 1 then s.out.vol.1 else s.out.vol.2) / 256]) := by
  rcases hch with rfl | rfl <;>
    norm_num [usb_audio_get_control, ATTRIB_ID, MUTE_CONTROL, VOLUME_CONTROL,
      CR_GET_CUR, CR_GET_MIN, CR_GET_MAX, CR_GET_RES]

theorem C9_capture_get_cur_reads_playback_witness :
    usb_audio_get_control sEx CR_GET_CUR (0x0200 + 1) 0x0500 2 =
      (2, [encodeVol (if (1 : Nat) = 1 then sEx.out.vol.1 else sEx.out.vol.2) % 256,
           encodeVol (if (1 : Nat) = 1 then sEx.out.vol.1 else sEx.out.vol.2) / 256]) :=
  C9_capture_get_cur_reads_playback sEx 1 2 (Or.inl rfl)

/-- C10: a volume request whose wire channel-number field is 0 (cscn =
0x0200, the master channel) derives channel index (0x0200 - 1) truncated to
uint8, which is 255, failing every cn < 2 bound; hence for every attribute
and target usb_audio_get_control returns the stall result and
usb_audio_set_control returns the stall result with the device state
unchanged. -/
theorem C10_master_channel_underflow (s : USBAudioState) (attrib idif length : Nat)
    (data : List Nat) :
    (0x0200 % 65536 + 255) % 256 = 255 ∧
    usb_audio_get_control s attrib 0x0200 idif length = (USB_RET_STALL, []) ∧
    usb_audio_set_control s attrib 0x0200 idif length data = (s, USB_RET_STALL) := by
  refine ⟨by norm_num,
    get_control_stall s attrib 0x0200 idif length ?_,
    set_control_stall s attrib 0x0200 idif length data ?_⟩
  · simp only [getSupported, MUTE_CONTROL, VOLUME_CONTROL, CR_GET_CUR,
      CR_GET_MIN, CR_GET_MAX, CR_GET_RES]
    omega
  · simp only [setSupported, MUTE_CONTROL, VOLUME_CONTROL, CR_SET_CUR]
    omega

end DevAudio
